import Mathlib

/-!
The GetService exchange of go-confidant.

A shallow embedding of confidant.go.  The single exported operation,
GetService, is glue between library calls (clock, JSON, KMS, HTTP).  The
library calls are taken from a World record so that every theorem holds for
all behaviours of the collaborators; the control flow, the message strings, the
request that is built and the order of the outbound calls are transcribed from
the source.  Each outbound call is logged, with its outcome, in a trace that is
returned next to the ServiceResult.
-/

namespace Confidant

/-- A Go byte slice: a list of octets. -/
abbrev Bytes := List Nat

/-- The text of a non-nil Go error, as returned by its Error method. -/
abbrev GoError := String

/-- The conversion of a Go string to a byte slice (UTF-8 octets). -/
def bytesOf (s : String) : Bytes :=
  s.data.flatMap (fun c => (String.utf8EncodeChar c).map UInt8.toNat)

/-- The verb %d of the fmt package on a signed integer. -/
def fmtD : Int → String
  | Int.ofNat n => Nat.repr n
  | Int.negSucc n => "-" ++ Nat.repr (n + 1)

/-! ## Types declared in the source -/

/-- The GlobalConfig struct (source lines 22-25). -/
structure GlobalConfig where
  AWSRegion : String
deriving DecidableEq, Repr

/-- The Config struct (source lines 28-39). -/
structure Config where
  TokenLife : Int
  AuthKey : String
  FromContext : String
  ToContext : String
  URL : String
deriving DecidableEq, Repr

/-- The ServiceResult struct (source lines 51-55); a nil Error is none. -/
structure ServiceResult where
  Error : Option GoError := none
  Result : Bool := false
  Service : Bytes := []
deriving DecidableEq, Repr

/-! ## Library types the source uses -/

/-- The accessor values of a time.Time: Year, Month, Day, Hour, Minute, Second. -/
structure Time where
  Year : Int
  Month : Nat
  Day : Nat
  Hour : Nat
  Minute : Nat
  Second : Nat
deriving DecidableEq, Repr

/-- The calendar and clock ranges the accessors of a time.Time stay within. -/
def Time.valid (t : Time) : Bool :=
  decide (1 ≤ t.Month) && decide (t.Month ≤ 12) && decide (1 ≤ t.Day) && decide (t.Day ≤ 31)
    && decide (t.Hour < 24) && decide (t.Minute < 60) && decide (t.Second < 60)

/-- The fields of kms.EncryptInput that the source sets; the encryption context
is the map literal, one pair per key. -/
structure EncryptInput where
  KeyId : String
  Plaintext : Bytes
  EncryptionContext : List (String × String)
deriving DecidableEq, Repr

/-- The field of kms.EncryptOutput that the source reads. -/
structure EncryptOutput where
  CiphertextBlob : Bytes
deriving DecidableEq, Repr

/-- The KMS client: its Encrypt operation, an outside collaborator. -/
structure KMS where
  Encrypt : EncryptInput → Except GoError EncryptOutput

/-- An http.Request as the transport receives it: the method, the target (the
rendering, by the method String, of the parsed URL the request carries) and the
header entries. -/
structure Request where
  Method : String
  URL : String
  Header : List (String × String)
deriving DecidableEq, Repr

/-- The parts of an http.Response the source reads. -/
structure Response where
  StatusCode : Int
  Body : Bytes
deriving DecidableEq, Repr

/-- Everything outside the source file: the package variable svc and the
behaviour of the library calls GetService makes. -/
structure World where
  /-- The package variable svc (source line 18); none is the nil pointer. -/
  svc : Option KMS
  /-- The reading of time.Now at source line 65. -/
  now : Time
  /-- The method Time.Add, with the duration in nanoseconds. -/
  add : Time → Int → Time
  /-- The call json.Marshal on the struct with fields not_before and not_after. -/
  marshal : String → String → Except GoError Bytes
  /-- The package net/url behind http.NewRequest: the error with which a raw
  target string is rejected, or the rendering of the URL it parses to, which may
  differ from the raw string (escaped path, lower-case scheme). -/
  parseURL : String → Except GoError String
  /-- The transport: the method Do of the http.Client. -/
  Do : Request → Except GoError Response
  /-- The error, if any, with which the JSON decoder fails to read one value
  from a response body. -/
  readValue : Bytes → Option GoError

/-- Equality of call outcomes is decidable. -/
instance exceptDecEq {ε α : Type} [DecidableEq ε] [DecidableEq α] : DecidableEq (Except ε α)
  | .ok a, .ok b =>
    if h : a = b then isTrue (congrArg Except.ok h) else isFalse (fun e => h (Except.ok.inj e))
  | .error a, .error b =>
    if h : a = b then isTrue (congrArg Except.error h)
    else isFalse (fun e => h (Except.error.inj e))
  | .ok _, .error _ => isFalse (fun e => Except.noConfusion e)
  | .error _, .ok _ => isFalse (fun e => Except.noConfusion e)

/-- One outbound call together with what it returned. -/
inductive Event where
  | encrypt (input : EncryptInput) (res : Except GoError EncryptOutput)
  | httpDo (req : Request) (res : Except GoError Response)
deriving DecidableEq

/-- Whether an event is a key-management Encrypt call. -/
def Event.isEncrypt : Event → Bool
  | .encrypt _ _ => true
  | .httpDo _ _ => false

/-- Whether an event is an HTTP transport call. -/
def Event.isHttpDo : Event → Bool
  | .encrypt _ _ => false
  | .httpDo _ _ => true

/-! ## Library functions with a fixed meaning -/

/-- The int64 wrap-around of Go arithmetic on time.Duration. -/
def wrap64 (x : Int) : Int := (x + 2 ^ 63) % 2 ^ 64 - 2 ^ 63

/-- The constant time.Minute, in nanoseconds. -/
def Minute : Int := 60000000000

/-- The alphabet of base64.URLEncoding. -/
def encodeURL : String := "ABCDEFGHIJKLMNOPQRSTUVWXYZabcdefghijklmnopqrstuvwxyz0123456789-_"

/-- The character of a six-bit value in base64.URLEncoding. -/
def b64Char (n : Nat) : Char := encodeURL.data.getD n '='

/-- The padded encoding of base64.URLEncoding, on lists of characters. -/
def encodeChars : Bytes → List Char
  | [] => []
  | [a] => [b64Char (a / 4), b64Char (a % 4 * 16), '=', '=']
  | [a, b] => [b64Char (a / 4), b64Char (a % 4 * 16 + b / 16), b64Char (b % 16 * 4), '=']
  | a :: b :: c :: rest =>
    b64Char (a / 4) :: b64Char (a % 4 * 16 + b / 16) :: b64Char (b % 16 * 4 + c / 64)
      :: b64Char (c % 64) :: encodeChars rest

/-- The call base64.URLEncoding.EncodeToString. -/
def EncodeToString (src : Bytes) : String := String.mk (encodeChars src)

/-- The call http.NewRequest with a nil body: the raw target string is parsed
by net/url; a parse error is returned as it is, and otherwise the request has
the given method, the parsed URL and an empty header. -/
def NewRequest (w : World) (method url : String) : Except GoError Request :=
  match w.parseURL url with
  | .error err => .error err
  | .ok target => .ok { Method := method, URL := target, Header := [] }

/-- The method Header.Set: the entry for the key is replaced. -/
def Request.setHeader (req : Request) (key value : String) : Request :=
  { req with Header := (key, value) :: req.Header.filter (fun kv => kv.1 != key) }

/-- The message of the InvalidUnmarshalError of encoding/json for a
bytes.Buffer passed by value. -/
def invalidUnmarshal : GoError := "json: Unmarshal(non-pointer bytes.Buffer)"

/-- The call json.NewDecoder(body).Decode(v) for a v that is not a pointer, as
at source line 136 where the bytes.Buffer is passed by value: the decoder first
reads one value from the body and returns the read error if there is one; the
unmarshal step then rejects every target that is not a non-nil pointer with an
InvalidUnmarshalError.  The target is never written. -/
def DecodeByValue (w : World) (body : Bytes) : Option GoError :=
  match w.readValue body with
  | some err => some err
  | none => some invalidUnmarshal

/-! ## The source function -/

/-- The closure getDatetimeFormat (source lines 68-71): the format
"%d%d%dT%d%d%dZ" applied to year, month, day, hour, minute, second. -/
def getDatetimeFormat (t : Time) : String :=
  fmtD t.Year ++ fmtD t.Month ++ fmtD t.Day ++ "T"
    ++ fmtD t.Hour ++ fmtD t.Minute ++ fmtD t.Second ++ "Z"

/-- The function GetService (source lines 58-148).  The second component is the
trace of outbound calls, in the order they were made. -/
def GetService (w : World) (cfg : Config) : ServiceResult × List Event :=
  let result : ServiceResult := {}
  match w.svc with
  | none =>
    ({ result with Error := some "kms service has not been initialized" }, [])
  | some svc =>
    let now := w.now
    let tAfter := w.add now (wrap64 (cfg.TokenLife * Minute))
    -- setup the payload to encrypt
    match w.marshal (getDatetimeFormat now) (getDatetimeFormat tAfter) with
    | .error err =>
      ({ result with Error := some ("failed to setup payload to kms: " ++ err ++ "\n") }, [])
    | .ok payload =>
      -- try encrypting via kms encrypt
      let input : EncryptInput :=
        { KeyId := cfg.AuthKey
          Plaintext := payload
          EncryptionContext := [("from", cfg.FromContext), ("to", cfg.ToContext)] }
      let encrypted := svc.Encrypt input
      match encrypted with
      | .error err =>
        ({ result with Error := some ("encrypt payload via kms error: " ++ err ++ "\n") },
          [Event.encrypt input encrypted])
      | .ok data =>
        -- setup the http request to Confidant
        let url := cfg.URL ++ "/v1/services/" ++ cfg.FromContext
        match NewRequest w "GET" url with
        | .error err =>
          let msg := "failed to create http request to confidant server (" ++ cfg.URL ++ "): "
            ++ err ++ "\n"
          ({ result with Error := some msg }, [Event.encrypt input encrypted])
        | .ok req =>
          -- gets the token from the AWS response we got back
          let token := EncodeToString data.CiphertextBlob
          -- setup the authorization for Confidant
          let basic := EncodeToString (bytesOf (cfg.FromContext ++ ":" ++ token))
          let req := req.setHeader "Authorization" ("Basic: " ++ basic)
          -- make the request to Confidant
          let sent := w.Do req
          let trace := [Event.encrypt input encrypted, Event.httpDo req sent]
          match sent with
          | .error err =>
            let msg := "failed to make the request to confidant: " ++ err ++ "\n"
            ({ result with Error := some msg }, trace)
          | .ok resp =>
            -- handles the responses we got back
            if resp.StatusCode = 404 then
              ({ result with Error := some "service not found in confidant" }, trace)
            else if resp.StatusCode = 401 then
              ({ result with Error := some "authentication or authorization failed" }, trace)
            else if resp.StatusCode = 200 then
              let buf : Bytes := []
              match DecodeByValue w resp.Body with
              | some _ =>
                ({ result with Error := some "failed to decode response from confidant" }, trace)
              | none =>
                ({ result with Result := true, Service := buf }, trace)
            else
              let msg := "received unexpected return from confidant (status: "
                ++ fmtD resp.StatusCode ++ ")\n"
              ({ result with Error := some msg }, trace)

/-- The function Configure (source lines 42-48): the package variable is
replaced by a client built for the region. -/
def Configure (newClient : String → KMS) (w : World) (cfg : GlobalConfig) : World :=
  { w with svc := some (newClient cfg.AWSRegion) }


/-! ## Stand-in collaborators for concrete runs -/

/-- A JSON string literal for text that needs no escaping. -/
def quoted (s : String) : Bytes := [34] ++ bytesOf s ++ [34]

/-- The output of json.Marshal on the two-field struct when neither string
needs escaping: an object with the keys not_before and not_after. -/
def marshalPlain (nb na : String) : Except GoError Bytes :=
  .ok ([123] ++ quoted "not_before" ++ [58] ++ quoted nb ++ [44]
    ++ quoted "not_after" ++ [58] ++ quoted na ++ [125])

/-- A clock addition that is right for whole minutes that stay within the hour. -/
def addMinutes (t : Time) (d : Int) : Time :=
  { t with Minute := t.Minute + (d / Minute).toNat }

/-- A stand-in for net/url on raw targets whose scheme and host are already in
normal form and whose path holds no character that needs escaping other than
the space: the target parses, and every space is rendered as %20. -/
def escapeSpaces (raw : String) : Except GoError String :=
  .ok (String.mk (raw.data.flatMap (fun c => if c = ' ' then ['%', '2', '0'] else [c])))

/-- A key-management client that answers every request with the blob AB CD. -/
def fixedKMS : KMS := ⟨fun _ => .ok ⟨[0xAB, 0xCD]⟩⟩

/-- A key-management client that fails every request. -/
def failingKMS : KMS := ⟨fun _ => .error "AccessDeniedException"⟩

/-- The call parameters of the scenario of the specification. -/
def scenarioCfg : Config :=
  { TokenLife := 5, AuthKey := "alias/x", FromContext := "app1", ToContext := "confidant",
    URL := "https://c.example" }

/-- The call parameters of the URL example of the specification. -/
def urlCfg : Config := { scenarioCfg with FromContext := "svc-a" }

/-- Call parameters whose FromContext holds a space. -/
def spaceCfg : Config := { scenarioCfg with FromContext := "a b" }

/-- The response body with the single key secret and the value s. -/
def secretBody : Bytes := [123] ++ quoted "secret" ++ [58] ++ quoted "s" ++ [125]

/-- An initialised process at 2024-01-15 10:20:30 whose key-management client
returns the blob AB CD, whose transport returns the given outcome and whose
response bodies all read as one well-formed JSON value. -/
def scenarioWorld (sent : Except GoError Response) : World :=
  { svc := some fixedKMS
    now := ⟨2024, 1, 15, 10, 20, 30⟩
    add := addMinutes
    marshal := marshalPlain
    parseURL := escapeSpaces
    Do := fun _ => sent
    readValue := fun _ => none }

/-- The payload of the scenario: the window from 10:20:30 to 10:25:30 on
2024-01-15 in the format of getDatetimeFormat. -/
def scenarioPayload : Bytes :=
  [123] ++ quoted "not_before" ++ [58] ++ quoted "2024115T102030Z" ++ [44]
    ++ quoted "not_after" ++ [58] ++ quoted "2024115T102530Z" ++ [125]

/-- The request GetService builds in the scenario: the header value is the
encoding of "app1:q80=", where "q80=" encodes the blob AB CD. -/
def scenarioRequest : Request :=
  ⟨"GET", "https://c.example/v1/services/app1", [("Authorization", "Basic: YXBwMTpxODA9")]⟩

/-- The request GetService builds for the URL example. -/
def urlRequest : Request :=
  ⟨"GET", "https://c.example/v1/services/svc-a",
    [("Authorization", "Basic: c3ZjLWE6cTgwPQ==")]⟩

/-- The request the transport receives for spaceCfg: the space of FromContext
is escaped in the target, and the header value is the encoding of "a b:q80=". -/
def spaceRequest : Request :=
  ⟨"GET", "https://c.example/v1/services/a%20b", [("Authorization", "Basic: YSBiOnE4MD0=")]⟩

/-- The scenario process before Configure has run. -/
def bareWorld : World := { scenarioWorld (.error "unused") with svc := none }

/-! ## Library facts -/

/-- The request http.NewRequest returns carries the method it was given, the
target net/url renders for the raw string, and an empty header. -/
theorem newRequest_ok_iff (w : World) (method url : String) (req : Request) :
    NewRequest w method url = .ok req ↔
      ∃ target, w.parseURL url = .ok target ∧
        req = { Method := method, URL := target, Header := [] } := by
  unfold NewRequest
  cases w.parseURL url with
  | error e => simp
  | ok t =>
    constructor
    · intro h
      exact ⟨t, rfl, (Except.ok.inj h).symm⟩
    · rintro ⟨t2, ht, hr⟩
      cases ht
      rw [hr]

/-- Decoding into a target passed by value never returns a nil error. -/
theorem decodeByValue_ne_none (w : World) (body : Bytes) : DecodeByValue w body ≠ none := by
  unfold DecodeByValue
  split <;> simp

/-- No run of GetService returns Result true: the only assignment of true sits
behind a nil error of the by-value Decode. -/
theorem never_successful (w : World) (cfg : Config) : (GetService w cfg).1.Result = false := by
  unfold GetService
  simp only []
  repeat' split
  all_goals simp_all [decodeByValue_ne_none]

/-! ## Results over every path -/

/-- C1: when the package variable svc is nil, GetService returns the error
"kms service has not been initialized" with Result false and an empty Service,
and the trace of outbound calls is empty: neither the key-management client nor
the transport is called. -/
theorem uninitialized_guard (w : World) (cfg : Config) (h : w.svc = none) :
    GetService w cfg =
      ({ Error := some "kms service has not been initialized", Result := false, Service := [] },
        []) := by
  unfold GetService
  simp only [h]

/-- Witness of C1 on the scenario process before Configure. -/
theorem uninitialized_guard_witness :
    bareWorld.svc = none ∧
    GetService bareWorld scenarioCfg =
      ({ Error := some "kms service has not been initialized", Result := false, Service := [] },
        []) :=
  ⟨rfl, uninitialized_guard bareWorld scenarioCfg rfl⟩

/-- C3: on every path the result has Result true exactly when Error is nil. -/
theorem result_iff_error_nil (w : World) (cfg : Config) :
    (GetService w cfg).1.Result = true ↔ (GetService w cfg).1.Error = none := by
  unfold GetService
  simp only []
  repeat' split
  all_goals simp

/-- C5: whenever the returned Error is non-nil the result has Result false and
an empty Service, and no result has both a populated Service and a non-nil
Error. -/
theorem no_partial_result (w : World) (cfg : Config) :
    ((GetService w cfg).1.Error ≠ none →
      (GetService w cfg).1.Result = false ∧ (GetService w cfg).1.Service = []) ∧
    ¬ ((GetService w cfg).1.Service ≠ [] ∧ (GetService w cfg).1.Error ≠ none) := by
  unfold GetService
  simp only []
  repeat' split
  all_goals simp

/-- Witness of C5 on a transport failure. -/
theorem no_partial_result_witness :
    (GetService (scenarioWorld (.error "dial tcp: timeout")) scenarioCfg).1.Error ≠ none ∧
    (GetService (scenarioWorld (.error "dial tcp: timeout")) scenarioCfg).1.Result = false ∧
    (GetService (scenarioWorld (.error "dial tcp: timeout")) scenarioCfg).1.Service = [] :=
  ⟨by decide,
    (no_partial_result (scenarioWorld (.error "dial tcp: timeout")) scenarioCfg).1 (by decide)⟩

/-! ## Status mapping -/

/-- C4: when the transport call of a run succeeded with a response, the status
decides the failure: 404 gives "service not found in confidant", 401 gives
"authentication or authorization failed", and every status other than 200, 401
and 404 gives a message that contains the status code in decimal; in all three
cases Result is false and Service is empty. -/
theorem status_decides_failure (w : World) (cfg : Config) (req : Request) (resp : Response)
    (h : Event.httpDo req (.ok resp) ∈ (GetService w cfg).2) :
    (resp.StatusCode = 404 → (GetService w cfg).1 =
      { Error := some "service not found in confidant", Result := false, Service := [] }) ∧
    (resp.StatusCode = 401 → (GetService w cfg).1 =
      { Error := some "authentication or authorization failed", Result := false,
        Service := [] }) ∧
    (resp.StatusCode ≠ 200 → resp.StatusCode ≠ 401 → resp.StatusCode ≠ 404 →
      (GetService w cfg).1 =
        { Error := some ("received unexpected return from confidant (status: "
            ++ fmtD resp.StatusCode ++ ")\n"),
          Result := false, Service := [] } ∧
      (fmtD resp.StatusCode).data <:+:
        ("received unexpected return from confidant (status: "
          ++ fmtD resp.StatusCode ++ ")\n").data) := by
  refine ⟨?_, ?_, ?_⟩
  · intro hs
    unfold GetService at h ⊢
    simp only [] at h ⊢
    repeat' split
    all_goals simp_all
  · intro hs
    unfold GetService at h ⊢
    simp only [] at h ⊢
    repeat' split
    all_goals simp_all
  · intro h200 h401 h404
    refine ⟨?_, ?_⟩
    · unfold GetService at h ⊢
      simp only [] at h ⊢
      repeat' split
      all_goals simp_all
    · exact ⟨"received unexpected return from confidant (status: ".data, ")\n".data, by
        simp [String.data_append]⟩

/-- Witness of C4 on the scenario with a transport that answers 500. -/
theorem status_decides_failure_witness :
    (GetService (scenarioWorld (.ok ⟨500, []⟩)) scenarioCfg).1 =
      { Error := some "received unexpected return from confidant (status: 500)\n",
        Result := false, Service := [] } :=
  ((status_decides_failure (scenarioWorld (.ok ⟨500, []⟩)) scenarioCfg
    scenarioRequest ⟨500, []⟩ (by decide)).2.2 (by decide) (by decide) (by decide)).1

/-! ## The requests that are built -/

/-- C6, as amended: every request handed to the transport is a GET, and its
target is what net/url makes of exactly the raw string cfg.URL followed by
"/v1/services/" and cfg.FromContext, to which the source applies no encoding of
its own; where net/url renders that raw string unchanged, the target is exactly
that string. -/
theorem request_target (w : World) (cfg : Config) (req : Request)
    (res : Except GoError Response) (h : Event.httpDo req res ∈ (GetService w cfg).2) :
    req.Method = "GET" ∧
    w.parseURL (cfg.URL ++ "/v1/services/" ++ cfg.FromContext) = .ok req.URL ∧
    (w.parseURL (cfg.URL ++ "/v1/services/" ++ cfg.FromContext)
        = .ok (cfg.URL ++ "/v1/services/" ++ cfg.FromContext) →
      req.URL = cfg.URL ++ "/v1/services/" ++ cfg.FromContext) := by
  have key : req.Method = "GET" ∧
      w.parseURL (cfg.URL ++ "/v1/services/" ++ cfg.FromContext) = .ok req.URL := by
    unfold GetService at h
    simp only [] at h
    repeat' split at h
    all_goals simp_all [Request.setHeader, newRequest_ok_iff]
    all_goals (obtain ⟨target, ht, hr⟩ := ‹∃ target, _›; simp_all)
  refine ⟨key.1, key.2, ?_⟩
  intro hraw
  rw [hraw] at key
  exact (Except.ok.inj key.2).symm

/-- Witness of C6: base URL "https://c.example" and FromContext "svc-a" give the
target "https://c.example/v1/services/svc-a". -/
theorem request_target_witness :
    Event.httpDo urlRequest (.ok ⟨200, secretBody⟩)
      ∈ (GetService (scenarioWorld (.ok ⟨200, secretBody⟩)) urlCfg).2 ∧
    urlRequest.Method = "GET" ∧ urlRequest.URL = "https://c.example/v1/services/svc-a" :=
  ⟨by decide,
    (request_target (scenarioWorld (.ok ⟨200, secretBody⟩)) urlCfg urlRequest
      (.ok ⟨200, secretBody⟩) (by decide)).1,
    (request_target (scenarioWorld (.ok ⟨200, secretBody⟩)) urlCfg urlRequest
      (.ok ⟨200, secretBody⟩) (by decide)).2.2 (by decide)⟩

/-- Counterexample to C6 as first stated: with base URL "https://c.example" and
FromContext "a b" the request the transport receives has the target
"https://c.example/v1/services/a%20b", which is not the string cfg.URL followed
by "/v1/services/" and cfg.FromContext. -/
theorem request_target_is_escaped :
    Event.httpDo spaceRequest (.ok ⟨200, secretBody⟩)
      ∈ (GetService (scenarioWorld (.ok ⟨200, secretBody⟩)) spaceCfg).2 ∧
    spaceRequest.URL = "https://c.example/v1/services/a%20b" ∧
    spaceRequest.URL ≠ spaceCfg.URL ++ "/v1/services/" ++ spaceCfg.FromContext := by
  refine ⟨by decide, rfl, by decide⟩

/-- Every Encrypt call of a run carries the key id, the marshalled payload and
the two-entry context of the call parameters. -/
theorem encrypt_event_fields (w : World) (cfg : Config) (input : EncryptInput)
    (res : Except GoError EncryptOutput) (h : Event.encrypt input res ∈ (GetService w cfg).2) :
    input.KeyId = cfg.AuthKey ∧
    w.marshal (getDatetimeFormat w.now)
      (getDatetimeFormat (w.add w.now (wrap64 (cfg.TokenLife * Minute)))) = .ok input.Plaintext ∧
    input.EncryptionContext = [("from", cfg.FromContext), ("to", cfg.ToContext)] := by
  unfold GetService at h
  simp only [] at h
  repeat' split at h
  all_goals simp_all

/-- C7: in an initialised run whose payload was serialised, the Encrypt calls of
the trace are exactly one call, with key id cfg.AuthKey, the serialised payload
as plaintext and the context with the two entries from and to; and a run whose
(FromContext, ToContext) pair differs passes a different context. -/
theorem encrypt_request (w : World) (cfg : Config) (svc : KMS) (payload : Bytes)
    (hsvc : w.svc = some svc)
    (hpay : w.marshal (getDatetimeFormat w.now)
      (getDatetimeFormat (w.add w.now (wrap64 (cfg.TokenLife * Minute)))) = .ok payload) :
    (GetService w cfg).2.filter Event.isEncrypt =
      [Event.encrypt
        ⟨cfg.AuthKey, payload, [("from", cfg.FromContext), ("to", cfg.ToContext)]⟩
        (svc.Encrypt
          ⟨cfg.AuthKey, payload, [("from", cfg.FromContext), ("to", cfg.ToContext)]⟩)] ∧
    ∀ (w2 : World) (cfg2 : Config) (input2 : EncryptInput) (res2 : Except GoError EncryptOutput),
      Event.encrypt input2 res2 ∈ (GetService w2 cfg2).2 →
      (cfg2.FromContext, cfg2.ToContext) ≠ (cfg.FromContext, cfg.ToContext) →
      input2.EncryptionContext ≠ [("from", cfg.FromContext), ("to", cfg.ToContext)] := by
  constructor
  · unfold GetService
    simp only [hsvc, hpay]
    repeat' split
    all_goals simp_all [Event.isEncrypt]
  · intro w2 cfg2 input2 res2 h2 hne hctx
    have hf := (encrypt_event_fields w2 cfg2 input2 res2 h2).2.2
    rw [hf] at hctx
    simp at hctx
    exact hne (Prod.ext hctx.1 hctx.2)

/-- Witness of C7 on the scenario of the specification. -/
theorem encrypt_request_witness :
    (GetService (scenarioWorld (.ok ⟨200, secretBody⟩)) scenarioCfg).2.filter Event.isEncrypt =
      [Event.encrypt ⟨"alias/x", scenarioPayload, [("from", "app1"), ("to", "confidant")]⟩
        (.ok ⟨[0xAB, 0xCD]⟩)] :=
  (encrypt_request (scenarioWorld (.ok ⟨200, secretBody⟩)) scenarioCfg fixedKMS scenarioPayload
    rfl rfl).1

/-! ## Order and number of outbound calls -/

/-- C8: the trace of a run has at most one Encrypt call and at most one
transport call; a transport call is the last event and directly follows an
Encrypt call that succeeded; a failed Encrypt call is the only event; and a
failed transport call gives the transport-failure result after exactly one
transport call. -/
theorem single_attempt (w : World) (cfg : Config) :
    (GetService w cfg).2.countP Event.isEncrypt ≤ 1 ∧
    (GetService w cfg).2.countP Event.isHttpDo ≤ 1 ∧
    (∀ req res, Event.httpDo req res ∈ (GetService w cfg).2 →
      ∃ input data, (GetService w cfg).2 =
        [Event.encrypt input (.ok data), Event.httpDo req res]) ∧
    (∀ input err, Event.encrypt input (.error err) ∈ (GetService w cfg).2 →
      (GetService w cfg).2 = [Event.encrypt input (.error err)]) ∧
    (∀ req err, Event.httpDo req (.error err) ∈ (GetService w cfg).2 →
      (GetService w cfg).1 =
        { Error := some ("failed to make the request to confidant: " ++ err ++ "\n"),
          Result := false, Service := [] } ∧
      (GetService w cfg).2.countP Event.isHttpDo = 1) := by
  unfold GetService
  simp only []
  repeat' split
  all_goals simp_all [Event.isEncrypt, Event.isHttpDo]

/-- Witness of C8 on a transport that fails. -/
theorem single_attempt_witness :
    (GetService (scenarioWorld (.error "dial tcp: timeout")) scenarioCfg).1 =
      { Error := some "failed to make the request to confidant: dial tcp: timeout\n",
        Result := false, Service := [] } ∧
    (GetService (scenarioWorld (.error "dial tcp: timeout")) scenarioCfg).2.countP
      Event.isHttpDo = 1 :=
  (single_attempt (scenarioWorld (.error "dial tcp: timeout")) scenarioCfg).2.2.2.2
    scenarioRequest "dial tcp: timeout" (by decide)

/-! ## The branch for status 200 -/

/-- C2: a run whose transport call succeeded with status 200 does not return a
successful result, whatever the body: Decode is given the buffer by value and
fails, so the result is the error "failed to decode response from confidant"
with Result false and an empty Service. -/
theorem ok_status_is_rejected (w : World) (cfg : Config) (req : Request) (resp : Response)
    (h : Event.httpDo req (.ok resp) ∈ (GetService w cfg).2) (h200 : resp.StatusCode = 200) :
    (GetService w cfg).1 =
      { Error := some "failed to decode response from confidant", Result := false,
        Service := [] } := by
  unfold GetService at h ⊢
  simp only [] at h ⊢
  repeat' split
  all_goals simp_all [decodeByValue_ne_none]

/-- Evaluation for C2 at the scenario of the specification: blob AB CD, status
200 and the body with the key secret. -/
theorem ok_status_is_rejected_witness :
    (GetService (scenarioWorld (.ok ⟨200, secretBody⟩)) scenarioCfg).1 =
      { Error := some "failed to decode response from confidant", Result := false,
        Service := [] } :=
  ok_status_is_rejected (scenarioWorld (.ok ⟨200, secretBody⟩)) scenarioCfg
    scenarioRequest ⟨200, secretBody⟩ (by decide) rfl

/-! ## Causes in error messages -/

/-- The four failure paths that format the underlying error with the verb %s
return a message that contains the text of that error. -/
theorem wrapped_errors_mention_cause (w : World) (cfg : Config) :
    (∀ svc err, w.svc = some svc →
      w.marshal (getDatetimeFormat w.now)
        (getDatetimeFormat (w.add w.now (wrap64 (cfg.TokenLife * Minute)))) = .error err →
      ∃ msg, (GetService w cfg).1.Error = some msg ∧ err.data <:+: msg.data) ∧
    (∀ input err, Event.encrypt input (.error err) ∈ (GetService w cfg).2 →
      ∃ msg, (GetService w cfg).1.Error = some msg ∧ err.data <:+: msg.data) ∧
    (∀ input data err, (GetService w cfg).2 = [Event.encrypt input (.ok data)] →
      w.parseURL (cfg.URL ++ "/v1/services/" ++ cfg.FromContext) = .error err →
      ∃ msg, (GetService w cfg).1.Error = some msg ∧ err.data <:+: msg.data) ∧
    (∀ req err, Event.httpDo req (.error err) ∈ (GetService w cfg).2 →
      ∃ msg, (GetService w cfg).1.Error = some msg ∧ err.data <:+: msg.data) := by
  refine ⟨?_, ?_, ?_, ?_⟩
  · intro svc err hsvc hm
    refine ⟨"failed to setup payload to kms: " ++ err ++ "\n", ?_,
      "failed to setup payload to kms: ".data, "\n".data, by simp [String.data_append]⟩
    unfold GetService
    simp only [hsvc, hm]
  · intro input err h
    refine ⟨"encrypt payload via kms error: " ++ err ++ "\n", ?_,
      "encrypt payload via kms error: ".data, "\n".data, by simp [String.data_append]⟩
    unfold GetService at h ⊢
    simp only [] at h ⊢
    repeat' split
    all_goals simp_all
  · intro input data err h hp
    refine ⟨"failed to create http request to confidant server (" ++ cfg.URL ++ "): "
      ++ err ++ "\n", ?_,
      ("failed to create http request to confidant server (" ++ cfg.URL ++ "): ").data,
      "\n".data, by simp [String.data_append]⟩
    unfold GetService at h ⊢
    simp only [] at h ⊢
    unfold NewRequest at h ⊢
    simp only [hp] at h ⊢
    repeat' split
    all_goals simp_all
  · intro req err h
    refine ⟨"failed to make the request to confidant: " ++ err ++ "\n", ?_,
      "failed to make the request to confidant: ".data, "\n".data, by
        simp [String.data_append]⟩
    unfold GetService at h ⊢
    simp only [] at h ⊢
    repeat' split
    all_goals simp_all

/-- C9: evaluation at the scenario with status 200.  The decode step fails with
the InvalidUnmarshalError of encoding/json, and the returned message is the
fixed text "failed to decode response from confidant", which does not contain
the text of that underlying error. -/
theorem decode_failure_drops_cause :
    DecodeByValue (scenarioWorld (.ok ⟨200, secretBody⟩)) secretBody
      = some "json: Unmarshal(non-pointer bytes.Buffer)" ∧
    (GetService (scenarioWorld (.ok ⟨200, secretBody⟩)) scenarioCfg).1.Error
      = some "failed to decode response from confidant" ∧
    ¬ ("json: Unmarshal(non-pointer bytes.Buffer)".data <:+:
        "failed to decode response from confidant".data) := by
  refine ⟨by decide, by decide, by decide⟩

/-! ## The timestamp format -/

/-- C10: the format of getDatetimeFormat is lossy.  The valid timestamps
2024-01-15 and 2024-11-05 at any common time of day both format with the date
part "2024115", so two timestamps with different fields give the same string
and the format is not injective. -/
theorem datetime_format_collides :
    Time.valid ⟨2024, 1, 15, 10, 20, 30⟩ = true ∧ Time.valid ⟨2024, 11, 5, 10, 20, 30⟩ = true ∧
    (∀ h m s : Nat,
      getDatetimeFormat ⟨2024, 1, 15, h, m, s⟩
        = "2024115T" ++ fmtD h ++ fmtD m ++ fmtD s ++ "Z" ∧
      getDatetimeFormat ⟨2024, 11, 5, h, m, s⟩
        = "2024115T" ++ fmtD h ++ fmtD m ++ fmtD s ++ "Z") ∧
    (∃ t1 t2 : Time, (t1.Month ≠ t2.Month ∧ t1.Day ≠ t2.Day) ∧
      getDatetimeFormat t1 = getDatetimeFormat t2) ∧
    ¬ Function.Injective getDatetimeFormat := by
  have h1 : fmtD (2024 : Int) ++ fmtD ((1 : Nat) : Int) ++ fmtD ((15 : Nat) : Int) ++ "T"
      = "2024115T" := by decide
  have h2 : fmtD (2024 : Int) ++ fmtD ((11 : Nat) : Int) ++ fmtD ((5 : Nat) : Int) ++ "T"
      = "2024115T" := by decide
  have hcol : getDatetimeFormat ⟨2024, 1, 15, 10, 20, 30⟩
      = getDatetimeFormat ⟨2024, 11, 5, 10, 20, 30⟩ := by decide
  refine ⟨by decide, by decide, ?_, ?_, ?_⟩
  · intro h m s
    constructor
    · show fmtD (2024 : Int) ++ fmtD ((1 : Nat) : Int) ++ fmtD ((15 : Nat) : Int) ++ "T"
        ++ fmtD h ++ fmtD m ++ fmtD s ++ "Z" = _
      rw [h1]
    · show fmtD (2024 : Int) ++ fmtD ((11 : Nat) : Int) ++ fmtD ((5 : Nat) : Int) ++ "T"
        ++ fmtD h ++ fmtD m ++ fmtD s ++ "Z" = _
      rw [h2]
  · exact ⟨⟨2024, 1, 15, 10, 20, 30⟩, ⟨2024, 11, 5, 10, 20, 30⟩, ⟨by decide, by decide⟩, hcol⟩
  · intro hinj
    exact absurd (hinj hcol) (by decide)

end Confidant
